import Mathlib

/-!
Verification of the libsss-rs packet framing codec and stream bookkeeping.

The Rust sources are embedded shallowly: machine integers become `Nat`
(values are bounded by explicit hypotheses where the width matters),
fallible constructors return `Option`, and buffer views become `List Nat`
of byte values.  Each definition mirrors one item of the sources:
`src/framing.rs` (SequenceNumber, PacketHeader), `src/host.rs`
(packet-size constants), `src/stream.rs` (StreamPeer, Stream) and
`src/packet/framing/frame_type.rs` (FrameType and the FrameTypes registry).
-/

/-- `enum SequenceNumber` from `src/framing.rs`: a tagged union over the
four width classes (2, 4, 6 or 8 encoded bytes), each holding the numeric
value of the sequence counter. -/
inductive SequenceNumber where
  | Len2 (v : Nat)
  | Len4 (v : Nat)
  | Len6 (v : Nat)
  | Len8 (v : Nat)
deriving DecidableEq, Repr

/-- `impl From<u64> for SequenceNumber` from `src/framing.rs`. -/
def SequenceNumber.fromU64 (x : Nat) : SequenceNumber :=
  if x < 65536 then .Len2 x
  else if x < 0x100000000 then .Len4 x
  else if x < 0x1000000000000 then .Len6 x
  else .Len8 x

/-- `impl From<u32> for SequenceNumber` from `src/framing.rs`. -/
def SequenceNumber.fromU32 (x : Nat) : SequenceNumber :=
  if x < 65536 then .Len2 x else .Len4 x

/-- `impl From<u16> for SequenceNumber` from `src/framing.rs`. -/
def SequenceNumber.fromU16 (x : Nat) : SequenceNumber :=
  .Len2 x

/-- `impl From<u8> for SequenceNumber` from `src/framing.rs`. -/
def SequenceNumber.fromU8 (x : Nat) : SequenceNumber :=
  .Len2 x

/-- The encoded byte width of a width class, as accounted in
`PacketHeader::new`'s `match seq_num` arm of `src/framing.rs`. -/
def SequenceNumber.widthBytes : SequenceNumber → Nat
  | .Len2 _ => 2
  | .Len4 _ => 4
  | .Len6 _ => 6
  | .Len8 _ => 8

/-- The numeric value stored inside a `SequenceNumber` variant. -/
def SequenceNumber.value : SequenceNumber → Nat
  | .Len2 v => v
  | .Len4 v => v
  | .Len6 v => v
  | .Len8 v => v

/-- `struct PacketHeader` from `src/framing.rs`: a typed view over a raw
byte buffer. -/
structure PacketHeader where
  data : List Nat
deriving DecidableEq, Repr

/-- `PacketHeader::new` from `src/framing.rs`: accumulates the header size
(1 flags byte, +2 if a version is given, +1 if a FEC group is given, plus
the sequence-number width), fails when the buffer is shorter, and
otherwise writes the flags byte into byte 0.  Faithful to the source, the
local `flags` is initialised to `0` and never updated before being
written, and no other field bytes are packed. -/
def PacketHeader.new (buffer : List Nat) (version : Option Nat)
    (fec_group : Option Nat) (seq_num : SequenceNumber) :
    Option PacketHeader :=
  let header_size := 1
  let header_size := header_size + (if version.isSome then 2 else 0)
  let header_size := header_size + (if fec_group.isSome then 1 else 0)
  let header_size := header_size +
    (match seq_num with
     | .Len2 _ => 2
     | .Len4 _ => 4
     | .Len6 _ => 6
     | .Len8 _ => 8)
  let flags : Nat := 0
  if buffer.length < header_size then none
  else some { data := buffer.set 0 flags }

/-- `PacketHeader::version` from `src/framing.rs`: the body is a stub that
always returns `None` (the comment `//if version bit is set Some(version)`
marks the unwritten logic). -/
def PacketHeader.version (_ : PacketHeader) : Option Nat :=
  none

/-- `PacketHeader::fec_group` from `src/framing.rs`: the body is a stub
that always returns `None`. -/
def PacketHeader.fec_group (_ : PacketHeader) : Option Nat :=
  none

/-- `PacketHeader::sequence_number` from `src/framing.rs`: the body is
`unimplemented!()`, a guaranteed panic, embedded as the always-failing
`Option`. -/
def PacketHeader.sequence_number (_ : PacketHeader) : Option SequenceNumber :=
  none

/-- `MIN_PACKET_SIZE` from `src/host.rs`. -/
def MIN_PACKET_SIZE : Nat := 64

/-- `MAX_PACKET_SIZE` from `src/host.rs`. -/
def MAX_PACKET_SIZE : Nat := 1280

/-- Modelled from the spec: the inbound datagram size gate is missing from
the sources — `src/host.rs` only declares the `MIN_PACKET_SIZE` and
`MAX_PACKET_SIZE` constants and its request handler is a stub.  Per §6 of
the spec, datagrams outside [64, 1280] total bytes are rejected before
header parsing.  `n` is the total datagram size in bytes. -/
def datagramSizeRejected (n : Nat) : Bool :=
  decide (n < MIN_PACKET_SIZE) || decide (MAX_PACKET_SIZE < n)

/-- `struct FrameType(pub u8)` from `src/packet/framing/frame_type.rs`;
`deriving DecidableEq` mirrors the derived `PartialEq, Eq`. -/
structure FrameType where
  val : Nat
deriving DecidableEq, Repr

/-- `FrameType::new` from `src/packet/framing/frame_type.rs`. -/
def FrameType.new (v : Nat) : FrameType :=
  ⟨v⟩

/-- The derived `PartialOrd, Ord` on the single-field newtype compare the
inner `u8` numerically. -/
def FrameType.le (a b : FrameType) : Bool :=
  decide (a.val ≤ b.val)

/-- Strict comparison derived from the `Ord` instance of `FrameType`. -/
def FrameType.lt (a b : FrameType) : Bool :=
  decide (a.val < b.val)

namespace FrameTypes

/-- `FrameTypes::EMPTY` from `src/packet/framing/frame_type.rs`. -/
def EMPTY : FrameType := ⟨0⟩

/-- `FrameTypes::PADDING` from `src/packet/framing/frame_type.rs`. -/
def PADDING : FrameType := ⟨1⟩

/-- `FrameTypes::STREAM` from `src/packet/framing/frame_type.rs`. -/
def STREAM : FrameType := ⟨2⟩

/-- `FrameTypes::CLOSE` from `src/packet/framing/frame_type.rs`. -/
def CLOSE : FrameType := ⟨3⟩

/-- `FrameTypes::DETACH` from `src/packet/framing/frame_type.rs`. -/
def DETACH : FrameType := ⟨4⟩

/-- `FrameTypes::DECONGESTION` from `src/packet/framing/frame_type.rs`. -/
def DECONGESTION : FrameType := ⟨5⟩

/-- `FrameTypes::PRIORITY` from `src/packet/framing/frame_type.rs`. -/
def PRIORITY : FrameType := ⟨6⟩

/-- `FrameTypes::RESET` from `src/packet/framing/frame_type.rs`. -/
def RESET : FrameType := ⟨7⟩

/-- `FrameTypes::ACK` from `src/packet/framing/frame_type.rs`. -/
def ACK : FrameType := ⟨8⟩

/-- `FrameTypes::SETTINGS` from `src/packet/framing/frame_type.rs`. -/
def SETTINGS : FrameType := ⟨9⟩

end FrameTypes

/-- The frame-tag registry of `src/packet/framing/frame_type.rs`, in its
declaration order. -/
def frameTagRegistry : List FrameType :=
  [FrameTypes.EMPTY, FrameTypes.PADDING, FrameTypes.STREAM,
   FrameTypes.CLOSE, FrameTypes.DETACH, FrameTypes.DECONGESTION,
   FrameTypes.PRIORITY, FrameTypes.RESET, FrameTypes.ACK,
   FrameTypes.SETTINGS]

/-- `struct RoutingCoordination` from `src/stream.rs`, with the two
pending sets consulted by `no_lookups_possible`: the peer-address lookup
set and the initiated key-exchange set (referenced in the source as
`self.coord.lookups` and the sibling `key_exchanges_initiated`).  Elements
are abstracted to identifiers. -/
structure RoutingCoordination where
  lookups : List Nat
  key_exchanges_initiated : List Nat

/-- `struct StreamPeer` from `src/stream.rs`: the per-peer stream set,
the USID index, and the routing-coordination state.  Streams and USIDs
are abstracted to identifiers. -/
structure StreamPeer where
  all_streams : List Nat
  usid_streams : List (Nat × Nat)
  coord : RoutingCoordination

/-- `StreamPeer::no_lookups_possible` from `src/stream.rs`:
`self.coord.lookups.isEmpty() && key_exchanges_initiated.isEmpty()`. -/
def StreamPeer.no_lookups_possible (p : StreamPeer) : Bool :=
  p.coord.lookups.isEmpty && p.coord.key_exchanges_initiated.isEmpty

/-- Errors of the header codec, per the spec's §7 taxonomy. -/
inductive HeaderError where
  | TruncatedHeader
  | NonMinimalEncoding
deriving DecidableEq, Repr

/-- A parsed header's logical fields, per the spec's §3 data model. -/
structure ParsedHeader where
  version : Option Nat
  fec_group : Option Nat
  seq : SequenceNumber
deriving DecidableEq, Repr

/-- Big-endian (network byte order) decoding of a byte list. -/
def beDecode (bytes : List Nat) : Nat :=
  bytes.foldl (fun acc b => acc * 256 + b) 0

/-- Whether bit 0 of a flags byte (version present) is set. -/
def flagsHasVersion (flags : Nat) : Bool :=
  decide (flags % 2 = 1)

/-- Whether bit 1 of a flags byte (FEC group present) is set. -/
def flagsHasFec (flags : Nat) : Bool :=
  decide (flags / 2 % 2 = 1)

/-- The sequence-number byte width declared by bits 2 and 3 of a flags
byte: 00 ↦ 2 bytes, 01 ↦ 4, 10 ↦ 6, 11 ↦ 8. -/
def flagsSeqWidth (flags : Nat) : Nat :=
  2 + 2 * (flags / 4 % 4)

/-- Offset of the sequence-number bytes within a header whose flags byte
is `flags`: the flags byte, then 2 version bytes if present, then 1 FEC
byte if present. -/
def seqOffsetOfFlags (flags : Nat) : Nat :=
  1 + (if flagsHasVersion flags then 2 else 0) +
    (if flagsHasFec flags then 1 else 0)

/-- Total header length derived from a flags byte. -/
def headerLenOfFlags (flags : Nat) : Nat :=
  seqOffsetOfFlags flags + flagsSeqWidth flags

/-- The sequence-number value a buffer declares, read big-endian at the
offset and width its flags byte dictates. -/
def declaredSeqValue (buffer : List Nat) (flags : Nat) : Nat :=
  beDecode ((buffer.drop (seqOffsetOfFlags flags)).take (flagsSeqWidth flags))

/-- The `SequenceNumber` variant of a given byte width holding `v`. -/
def SequenceNumber.ofWidth (w v : Nat) : SequenceNumber :=
  if w = 2 then .Len2 v
  else if w = 4 then .Len4 v
  else if w = 6 then .Len6 v
  else .Len8 v

/-- Modelled from the spec: `PacketHeader::parse` is absent from the
sources (`src/framing.rs` has only the stubbed accessors).  Per §4.1 and
§6 of the spec it reads the flags byte {bit 0: version present, bit 1:
FEC group present, bits 2 and 3: sequence-number width class}, derives
the header length, fails with `TruncatedHeader` on a short buffer,
decodes the fields big-endian at their fixed offsets, and rejects as
`NonMinimalEncoding` any header whose declared width class is not the
minimal class (`SequenceNumber.fromU64`) for the decoded value. -/
def parseHeader (buffer : List Nat) : Except HeaderError ParsedHeader :=
  match buffer with
  | [] => .error .TruncatedHeader
  | flags :: _ =>
    if buffer.length < headerLenOfFlags flags then .error .TruncatedHeader
    else
      let v := declaredSeqValue buffer flags
      if (SequenceNumber.fromU64 v).widthBytes ≠ flagsSeqWidth flags then
        .error .NonMinimalEncoding
      else
        .ok { version :=
                if flagsHasVersion flags then
                  some (beDecode ((buffer.drop 1).take 2))
                else none,
              fec_group :=
                if flagsHasFec flags then
                  some (beDecode ((buffer.drop
                    (1 + (if flagsHasVersion flags then 2 else 0))).take 1))
                else none,
              seq := SequenceNumber.ofWidth (flagsSeqWidth flags) v }

/-- `uia::PeerIdentity`, opaque to this crate. -/
structure PeerIdentity where
  raw : Nat

/-- `uia::comm::Endpoint`, opaque to this crate. -/
structure Endpoint where
  raw : Nat

/-- `struct Stream` from `src/stream.rs`: holds only the per-host state
and the internal stream control object; notably it carries no connection
state. -/
structure SssStream where
  host : Unit
  stream : Unit

/-- `Stream::connect_to` from `src/stream.rs`: the body is a stub that
touches no state and returns `true`. -/
def SssStream.connect_to (s : SssStream) (_ : PeerIdentity) (_ _ : String)
    (_ : Endpoint) : SssStream × Bool :=
  (s, true)

/-- `Stream::disconnect` from `src/stream.rs`: the body is the empty stub
`{}`; no state is changed. -/
def SssStream.disconnect (s : SssStream) : SssStream :=
  s

/-- `Stream::is_connected` from `src/stream.rs`: the body is a stub that
always returns `true`, regardless of any prior call. -/
def SssStream.is_connected (_ : SssStream) : Bool :=
  true

/-- Claim C1: for every unsigned 64-bit value `v`, `From<u64>` selects the
unique minimal width class per the boundary rule (`< 2^16` ↦ 2 bytes,
`< 2^32` ↦ 4, `< 2^48` ↦ 6, else 8): the chosen class follows the boundary
table, its width suffices for `v`, and no narrower admissible width does;
in particular 65535 ↦ 2 bytes, 65536 ↦ 4, `2^32 - 1` ↦ 4, `2^32` ↦ 6 and
`2^48` ↦ 8. -/
theorem fromU64_selects_minimal_width :
    (∀ v : Nat, v < 2 ^ 64 →
      (SequenceNumber.fromU64 v).widthBytes =
        (if v < 2 ^ 16 then 2 else if v < 2 ^ 32 then 4
         else if v < 2 ^ 48 then 6 else 8) ∧
      v < 2 ^ (8 * (SequenceNumber.fromU64 v).widthBytes) ∧
      (∀ w, w ∈ [2, 4, 6, 8] → v < 2 ^ (8 * w) →
        (SequenceNumber.fromU64 v).widthBytes ≤ w)) ∧
    (SequenceNumber.fromU64 65535).widthBytes = 2 ∧
    (SequenceNumber.fromU64 65536).widthBytes = 4 ∧
    (SequenceNumber.fromU64 (2 ^ 32 - 1)).widthBytes = 4 ∧
    (SequenceNumber.fromU64 (2 ^ 32)).widthBytes = 6 ∧
    (SequenceNumber.fromU64 (2 ^ 48)).widthBytes = 8 := by
  refine ⟨?_, by decide, by decide, by norm_num [SequenceNumber.fromU64,
    SequenceNumber.widthBytes], by norm_num [SequenceNumber.fromU64,
    SequenceNumber.widthBytes], by norm_num [SequenceNumber.fromU64,
    SequenceNumber.widthBytes]⟩
  intro v hv
  rw [show (2:Nat) ^ 64 = 18446744073709551616 from by norm_num] at hv
  have h16 : (2:Nat) ^ 16 = 65536 := by norm_num
  have h32 : (2:Nat) ^ 32 = 0x100000000 := by norm_num
  have h48 : (2:Nat) ^ 48 = 0x1000000000000 := by norm_num
  simp only [SequenceNumber.fromU64, h16, h32, h48]
  split_ifs with h1 h2 h3 <;>
    simp only [SequenceNumber.widthBytes] <;>
    refine ⟨by trivial, by norm_num; omega, fun w hw hvw => ?_⟩ <;>
    fin_cases hw <;> norm_num at hvw ⊢ <;> omega

/-- Witness for C1 at `v = 70000`. -/
theorem fromU64_selects_minimal_width_witness :
    (70000:Nat) < 2 ^ 64 ∧
    (SequenceNumber.fromU64 70000).widthBytes =
      (if (70000:Nat) < 2 ^ 16 then 2 else if (70000:Nat) < 2 ^ 32 then 4
       else if (70000:Nat) < 2 ^ 48 then 6 else 8) :=
  ⟨by norm_num, (fromU64_selects_minimal_width.1 70000 (by norm_num)).1⟩

/-- Claim C10: the four `From` conversions agree wherever their source
types overlap — for any value representable in the narrower type, the
narrower conversion produces the same `SequenceNumber` (class and stored
value) as each wider one. -/
theorem seq_from_conversions_agree :
    ∀ v : Nat,
      (v < 2 ^ 8 →
        SequenceNumber.fromU8 v = SequenceNumber.fromU64 v ∧
        SequenceNumber.fromU8 v = SequenceNumber.fromU32 v ∧
        SequenceNumber.fromU8 v = SequenceNumber.fromU16 v) ∧
      (v < 2 ^ 16 →
        SequenceNumber.fromU16 v = SequenceNumber.fromU64 v ∧
        SequenceNumber.fromU16 v = SequenceNumber.fromU32 v) ∧
      (v < 2 ^ 32 →
        SequenceNumber.fromU32 v = SequenceNumber.fromU64 v) := by
  intro v
  refine ⟨fun h => ?_, fun h => ?_, fun h => ?_⟩
  · norm_num at h
    have h1 : v < 65536 := by omega
    simp [SequenceNumber.fromU8, SequenceNumber.fromU16,
      SequenceNumber.fromU32, SequenceNumber.fromU64, h1]
  · norm_num at h
    simp [SequenceNumber.fromU16, SequenceNumber.fromU32,
      SequenceNumber.fromU64, h]
  · norm_num at h
    by_cases h1 : v < 65536
    · simp [SequenceNumber.fromU32, SequenceNumber.fromU64, h1]
    · simp [SequenceNumber.fromU32, SequenceNumber.fromU64, h1, h]

/-- Witness for C10 at `v = 300`. -/
theorem seq_from_conversions_agree_witness :
    SequenceNumber.fromU16 300 = SequenceNumber.fromU64 300 :=
  ((seq_from_conversions_agree 300).2.1 (by norm_num)).1

/-- Claim C3: `PacketHeader::new` fails (returns `None`, the
buffer-too-small outcome) exactly when the buffer is shorter than
1 + (2 if a version is given) + (1 if a FEC group is given) + the byte
width of the sequence number's class; otherwise it succeeds. -/
theorem packetHeader_new_none_iff_buffer_too_small :
    ∀ (buffer : List Nat) (version fec_group : Option Nat)
      (seq_num : SequenceNumber),
      (PacketHeader.new buffer version fec_group seq_num = none ↔
        buffer.length <
          1 + (if version.isSome then 2 else 0) +
            (if fec_group.isSome then 1 else 0) + seq_num.widthBytes) := by
  intro buffer version fec_group seq_num
  simp only [PacketHeader.new]
  cases seq_num <;>
    simp only [SequenceNumber.widthBytes] <;>
    split_ifs with h <;> simp [h] <;> omega

/-- Claim C8: `StreamPeer::no_lookups_possible` returns `true` exactly
when both the pending address-lookup set and the pending key-exchange
set are empty. -/
theorem no_lookups_possible_iff_both_empty :
    ∀ p : StreamPeer,
      p.no_lookups_possible = true ↔
        p.coord.lookups = [] ∧ p.coord.key_exchanges_initiated = [] := by
  intro p
  simp [StreamPeer.no_lookups_possible, List.isEmpty_iff]

/-- Claim C6 (modelled from the spec; only the two size constants exist
in `src/host.rs`): an inbound datagram is rejected by the size gate
exactly when its total size is below `MIN_PACKET_SIZE = 64` or above
`MAX_PACKET_SIZE = 1280` bytes; sizes inside [64, 1280] pass. -/
theorem datagram_size_gate_iff :
    ∀ n : Nat, datagramSizeRejected n = true ↔ (n < 64 ∨ 1280 < n) := by
  intro n
  simp [datagramSizeRejected, MIN_PACKET_SIZE, MAX_PACKET_SIZE]

/-- Claim C7: the frame-tag registry is a closed set of exactly ten
pairwise-distinct single-byte codes listed in order EMPTY, PADDING,
STREAM, CLOSE, DETACH, DECONGESTION, PRIORITY, RESET, ACK, SETTINGS;
equality of `FrameType` is decidable (every pair is equal or unequal),
and the derived comparison is a total order (total, antisymmetric,
transitive) under which the registry is strictly increasing in its
enumeration order. -/
theorem frameTag_registry_closed_and_ordered :
    frameTagRegistry.length = 10 ∧
    frameTagRegistry.Nodup ∧
    List.Chain' (fun a b => FrameType.lt a b = true) frameTagRegistry ∧
    (∀ a b : FrameType, a = b ∨ a ≠ b) ∧
    (∀ a b : FrameType,
      FrameType.le a b = true ∨ FrameType.le b a = true) ∧
    (∀ a b : FrameType,
      FrameType.le a b = true → FrameType.le b a = true → a = b) ∧
    (∀ a b c : FrameType, FrameType.le a b = true →
      FrameType.le b c = true → FrameType.le a c = true) := by
  refine ⟨rfl, by decide,
    by simp only [frameTagRegistry, List.chain'_cons, List.chain'_singleton]; decide,
    fun a b => eq_or_ne a b,
    fun a b => ?_, fun a b hab hba => ?_, fun a b c hab hbc => ?_⟩
  · simp only [FrameType.le, decide_eq_true_eq]
    omega
  · cases a
    cases b
    simp only [FrameType.le, decide_eq_true_eq] at hab hba
    simp only [FrameType.mk.injEq]
    omega
  · simp only [FrameType.le, decide_eq_true_eq] at hab hbc ⊢
    omega

/-- Witness for C7: antisymmetry applied at (EMPTY, EMPTY) and
transitivity applied along EMPTY ≤ PADDING ≤ STREAM. -/
theorem frameTag_registry_closed_and_ordered_witness :
    FrameTypes.EMPTY = FrameTypes.EMPTY ∧
    FrameType.le FrameTypes.EMPTY FrameTypes.STREAM = true :=
  ⟨frameTag_registry_closed_and_ordered.2.2.2.2.2.1 FrameTypes.EMPTY
      FrameTypes.EMPTY (by decide) (by decide),
   frameTag_registry_closed_and_ordered.2.2.2.2.2.2 FrameTypes.EMPTY
      FrameTypes.PADDING FrameTypes.STREAM (by decide) (by decide)⟩

/-- Claim C4 (modelled from the spec; no parse routine exists in the
sources): any parse that succeeds yields a sequence number in its
minimal width class — equivalently, every buffer declaring a width class
that is not the minimal class for the decoded value, and long enough to
reach the non-minimality check, is rejected as `NonMinimalEncoding`. -/
theorem parse_rejects_nonminimal :
    ∀ (flags : Nat) (rest : List Nat),
      headerLenOfFlags flags ≤ (flags :: rest).length →
      (SequenceNumber.fromU64
          (declaredSeqValue (flags :: rest) flags)).widthBytes ≠
        flagsSeqWidth flags →
      parseHeader (flags :: rest) = .error .NonMinimalEncoding := by
  intro flags rest hlen hnm
  simp only [parseHeader]
  rw [if_neg (by omega), if_pos hnm]

/-- Witness for C4: flags byte 4 declares a 4-byte class, but the decoded
value 5 has minimal class 2 bytes, so parsing rejects the buffer. -/
theorem parse_rejects_nonminimal_witness :
    headerLenOfFlags 4 ≤ ([4, 0, 0, 0, 5] : List Nat).length ∧
    parseHeader [4, 0, 0, 0, 5] = .error .NonMinimalEncoding :=
  ⟨by decide, parse_rejects_nonminimal 4 [0, 0, 0, 5] (by decide) (by decide)⟩

/-- Claim C2 is violated by the code: building a header with
version = Some 7, fec_group = None, sequence number 70000 (4-byte class)
into an 8-byte buffer succeeds, yet the accessors of the produced header
return `None` for the version (the stub ignores the version bit) and no
sequence number at all (`unimplemented!()`), instead of the original
field values. -/
theorem build_then_parse_loses_fields :
    (PacketHeader.new (List.replicate 8 0) (some 7) none
        (SequenceNumber.fromU64 70000)).map PacketHeader.version =
      some none ∧
    (PacketHeader.new (List.replicate 8 0) (some 7) none
        (SequenceNumber.fromU64 70000)).map PacketHeader.sequence_number =
      some none := by
  constructor <;> rfl

/-- Claim C5 is violated by the code: on the successful build with
version = Some 7 and a 4-byte-class sequence number 70000 over a buffer
of 255s, the written byte 0 is 0 — the version-present bit (bit 0) and
the width-class bits (bits 2 and 3) are never set — and no version or
sequence-number bytes are written after it (the buffer tail is
untouched). -/
theorem build_writes_zero_flags :
    (PacketHeader.new (List.replicate 8 255) (some 7) none
        (SequenceNumber.fromU64 70000)).map PacketHeader.data =
      some (0 :: List.replicate 7 255) := by
  rfl

/-- Claim C9 is violated by the code: `Stream::is_connected` is a stub
returning `true` unconditionally, so after `disconnect()` the stream
still reports itself connected, contradicting the method's own
documentation (`is_connected() subsequently returns false`). -/
theorem is_connected_true_after_disconnect :
    SssStream.is_connected (SssStream.disconnect ⟨(), ()⟩) = true :=
  rfl
